import Mathlib

/-!
Shallow embedding of the wasabi TCP connection manager (src/wasabi/src/network.rs)
and proofs of the specification claims about it.

Machine integers are modelled as Nat with explicit bounds or reductions where
overflow matters; fallible Rust code returns Except; Rust panics are modelled
as Option.none; OS side effects (bind, connect, accept, socket reads/writes,
poll registration, take_error) are passed in as explicit result parameters,
since the embedded functions are parametric in what the OS returns.
-/

namespace Wasabi

/-- Error kinds used by the code: every error constructed in network.rs uses
std ErrorKind Other. -/
inductive ErrKind where
  | other
deriving DecidableEq, Repr

/-- Model of std io Error as constructed by Error new in network.rs:
a kind together with its message string. -/
structure IOErr where
  kind : ErrKind
  msg : String
deriving DecidableEq, Repr

/-- Message of the error built by slab_get, get_listener_ref and get_stream_ref. -/
def slabMissingMsg : String := "Network object not found in slab"

/-- The error value returned both for an unregistered handle (slab_get) and for
a registered handle of the wrong variant (get_listener_ref / get_stream_ref):
the source constructs the identical Error in all three places. -/
def slabNotFoundErr : IOErr := ⟨ErrKind.other, slabMissingMsg⟩

/-- The error value returned by addr_to_bytes for an IPv6 address. -/
def ipv6UnsupportedErr : IOErr := ⟨ErrKind.other, "IPV6 not supported"⟩

/-- Model of std net SocketAddr: a V4 address carries its four octets
(in the order produced by octets, most significant first) and a port,
a V6 address carries opaque segments and a port. -/
inductive SocketAddr where
  | v4 (o1 o2 o3 o4 : Nat) (port : Nat)
  | v6 (segments : List Nat) (port : Nat)
deriving DecidableEq, Repr

/-- Modelled from the spec: bytes u16_as_u8_le is the repository's byte-buffer
encoding helper (its module is not under src); the spec fixes its contract as
the 2-byte little-endian encoding of the port, so byte 0 is the low byte and
byte 1 is the high byte. The repository's own test vectors (port 100 encodes
as bytes 100, 0 and the bytes of port 34254 decode back through as_u16_le)
pin the same behaviour. -/
def u16_as_u8_le (p : Nat) : List Nat := [p % 256, p / 256]

/-- Overwrite of the subslice b[i .. i + src.length] by src, the effect of
copy_from_slice on the slice b[i..i+src.length]; callers guard the bounds
(an out-of-range slice panics, modelled as none at the call sites). -/
def writeAt (b : List Nat) (i : Nat) (src : List Nat) : List Nat :=
  b.take i ++ src ++ b.drop (i + src.length)

/-- Embedding of addr_to_bytes. For a V4 address it copies the four octets
into b[0..4] and the little-endian port bytes into b[4..6]; taking the slice
b[0..4] panics unless 4 ≤ b.length, and b[4..6] panics unless 6 ≤ b.length
(both copy_from_slice length checks hold: 4 = 4 and 2 = 2). A panic is
modelled as none; otherwise the result is the Rust return value paired with
the buffer contents after the call. For a V6 address it returns the error
before touching b. -/
def addr_to_bytes (addr : SocketAddr) (b : List Nat) :
    Option (Except IOErr Unit × List Nat) :=
  match addr with
  | .v4 o1 o2 o3 o4 p =>
    if 4 ≤ b.length then
      let b1 := writeAt b 0 [o1, o2, o3, o4]
      if 6 ≤ b1.length then
        some (Except.ok (), writeAt b1 4 (u16_as_u8_le p))
      else
        none
    else
      none
  | .v6 _ _ => some (Except.error ipv6UnsupportedErr, b)

/-- Embedding of the test helper as_u16_le from the tests module in
network.rs: array[0] bitor (array[1] shifted left by 8), in u16 arithmetic
(both operands are below 2 to the 16 for byte inputs, so Nat arithmetic
agrees); it reads indices 0 and 1 of its 2-byte input. -/
def as_u16_le (a : List Nat) : Nat :=
  (a.getD 0 0) ||| ((a.getD 1 0) <<< 8)

/-- Model of a mio readiness event: the token (a usize) and the four
readiness flags tested by event_to_ints through UnixReady. -/
structure Event where
  token : Nat
  readable : Bool
  writable : Bool
  hup : Bool
  error : Bool
deriving DecidableEq, Repr

/-- Semantics of the Rust cast of a usize to i64 on a 64-bit platform:
reduce modulo 2 to the 64 and reinterpret in two's complement. -/
def usize_as_i64 (n : Nat) : Int :=
  if n % 2 ^ 64 < 2 ^ 63 then ((n % 2 ^ 64 : Nat) : Int)
  else ((n % 2 ^ 64 : Nat) : Int) - 2 ^ 64

/-- The state integer computed by event_to_ints: a bitwise or of the four
flag tests, exactly as written in the source (the branches that shift 0 are
kept as written; they are 0). The i64 arithmetic never overflows because all
operands lie in 0..15, so Nat arithmetic agrees. -/
def readiness_state (e : Event) : Nat :=
  (if e.readable then 1 else 0)
    ||| (if e.writable then 1 <<< 1 else 0 <<< 1)
    ||| (if e.hup then 1 <<< 2 else 0 <<< 2)
    ||| (if e.error then 1 <<< 3 else 0 <<< 3)

/-- Embedding of event_to_ints: the token cast to i64, paired with the
readiness state. -/
def event_to_ints (e : Event) : Int × Int :=
  (usize_as_i64 e.token, (readiness_state e : Int))

/-- Refinement target, following the spec's words: the integer whose bits
0 to 3 hold the readable, writable, hangup and error flags and whose other
bits are 0. -/
def spec_readiness_value (r w h er : Bool) : Nat :=
  (cond r 1 0) + 2 * (cond w 1 0) + 4 * (cond h 1 0) + 8 * (cond er 1 0)

/-- The tagged variant stored per handle: a listening socket or a connected
stream. The OS socket object itself is opaque; it is modelled by a Nat
identifying it. -/
inductive NetTcp where
  | listener (sock : Nat)
  | stream (sock : Nat)
deriving DecidableEq, Repr

/-- Modelled from the spec: the handle registry is backed by the slab crate,
whose source is not part of src; the spec's registry contract (section 4.3)
is modelled directly: entries live in slots indexed by small integers, a slot
is vacant (none) or occupied, and insert assigns the lowest available handle.
The slot vector is a list of optional entries; removal vacates the slot
without shrinking the vector, as a slab does. -/
abbrev Slab := List (Option NetTcp)

/-- Lowest vacant slot index of a slab: the first index holding none, or the
length of the slot vector when every slot is occupied (a fresh slot). -/
def lowestVacant : Slab → Nat
  | [] => 0
  | none :: _ => 0
  | some _ :: rest => lowestVacant rest + 1

/-- Lookup of the entry registered at index i, none when the handle is
unoccupied or beyond the slot vector. -/
def Slab.get (s : Slab) (i : Nat) : Option NetTcp :=
  match s[i]? with
  | some (some v) => some v
  | _ => none

/-- Embedding of slab contains: whether handle i is currently registered. -/
def Slab.contains (s : Slab) (i : Nat) : Bool :=
  (Slab.get s i).isSome

/-- Modelled from the spec: insert places the entry at the lowest available
handle and returns the updated slab together with that handle. -/
def Slab.insert (s : Slab) (v : NetTcp) : Slab × Nat :=
  let i := lowestVacant s
  (if i < s.length then s.set i (some v) else s ++ [some v], i)

/-- Embedding of slab remove as used under close's contains guard: vacate
slot i. -/
def Slab.remove (s : Slab) (i : Nat) : Slab :=
  s.set i none

/-- The registry-visible state of a NetLoop: its slab and the public
is_listening flag. The poll handle, the poller thread and the event channel
are concurrency plumbing outside the registry state and carry no data the
claims below depend on; the OS results they produce enter the operations as
explicit parameters. -/
structure NetLoop where
  slab : Slab
  is_listening : Bool
deriving DecidableEq, Repr

/-- Embedding of slab_get: the entry at i, or the not-found error. -/
def slab_get (nl : NetLoop) (i : Nat) : Except IOErr NetTcp :=
  match Slab.get nl.slab i with
  | some ntcp => Except.ok ntcp
  | none => Except.error slabNotFoundErr

/-- Embedding of get_listener_ref: narrow the entry at i to a listener; on a
miss or on the other variant it returns the very same error value slab_get
uses (the source constructs an identical Error in the wildcard arm). -/
def get_listener_ref (nl : NetLoop) (i : Nat) : Except IOErr Nat :=
  match slab_get nl i with
  | Except.error e => Except.error e
  | Except.ok (.listener sock) => Except.ok sock
  | Except.ok _ => Except.error slabNotFoundErr

/-- Embedding of get_stream_ref: narrow the entry at i to a stream; the
mismatch arm returns the same error value as slab_get. -/
def get_stream_ref (nl : NetLoop) (i : Nat) : Except IOErr Nat :=
  match slab_get nl i with
  | Except.error e => Except.error e
  | Except.ok (.stream sock) => Except.ok sock
  | Except.ok _ => Except.error slabNotFoundErr

/-- Embedding of tcp_listen. bindRes is the OS result of TcpListener bind
(the bound socket on success), regRes the result of poll register. The
question-mark operator is modelled by returning early with the error; note
the entry stays inserted and is_listening stays unchanged when register
fails, and is_listening is set only after a successful register, exactly as
in the source order of statements. -/
def tcp_listen (nl : NetLoop) (bindRes : Except IOErr Nat)
    (regRes : Except IOErr Unit) : NetLoop × Except IOErr Nat :=
  match bindRes with
  | Except.error e => (nl, Except.error e)
  | Except.ok sock =>
    let p := Slab.insert nl.slab (.listener sock)
    let nl1 : NetLoop := { nl with slab := p.1 }
    match get_listener_ref nl1 p.2 with
    | Except.error e => (nl1, Except.error e)
    | Except.ok _ =>
      match regRes with
      | Except.error e => (nl1, Except.error e)
      | Except.ok _ => ({ nl1 with is_listening := true }, Except.ok p.2)

/-- Embedding of register_stream: insert the stream, then poll register; on
register failure the entry stays inserted and the error is returned. -/
def register_stream (nl : NetLoop) (sock : Nat)
    (regRes : Except IOErr Unit) : NetLoop × Except IOErr Nat :=
  let p := Slab.insert nl.slab (.stream sock)
  let nl1 : NetLoop := { nl with slab := p.1 }
  match get_stream_ref nl1 p.2 with
  | Except.error e => (nl1, Except.error e)
  | Except.ok _ =>
    match regRes with
    | Except.error e => (nl1, Except.error e)
    | Except.ok _ => (nl1, Except.ok p.2)

/-- Embedding of tcp_connect. connRes is the OS result of TcpStream connect.
is_listening is set to true before register_stream runs, as in the source. -/
def tcp_connect (nl : NetLoop) (connRes : Except IOErr Nat)
    (regRes : Except IOErr Unit) : NetLoop × Except IOErr Nat :=
  match connRes with
  | Except.error e => (nl, Except.error e)
  | Except.ok sock =>
    let nl1 : NetLoop := { nl with is_listening := true }
    register_stream nl1 sock regRes

/-- Embedding of tcp_accept. takeErr is the OS result of take_error on the
listener (ok (some e) means the advisory error slot held e), accRes the OS
result of accept (the accepted stream socket on success), regRes the poll
register result for the new stream. The third component collects the
diagnostics printed by println, in order. A pending advisory error is only
printed; an Err from take_error itself, from accept or from registration
propagates through the question-mark operator. -/
def tcp_accept (nl : NetLoop) (id : Nat)
    (takeErr : Except IOErr (Option IOErr)) (accRes : Except IOErr Nat)
    (regRes : Except IOErr Unit) :
    NetLoop × Except IOErr Nat × List IOErr :=
  match get_listener_ref nl id with
  | Except.error e => (nl, Except.error e, [])
  | Except.ok _ =>
    match takeErr with
    | Except.error e => (nl, Except.error e, [])
    | Except.ok oerr =>
      let diag := match oerr with
        | some e => [e]
        | none => []
      match get_listener_ref nl id with
      | Except.error e => (nl, Except.error e, diag)
      | Except.ok _ =>
        match accRes with
        | Except.error e => (nl, Except.error e, diag)
        | Except.ok sock =>
          let r := register_stream nl sock regRes
          (r.1, r.2, diag)

/-- Embedding of read_stream (borrows the NetLoop immutably, so no state
component): takeErr is the advisory take_error result on the stream, readRes
the OS result of read. The second component collects the println
diagnostics. -/
def read_stream (nl : NetLoop) (i : Nat)
    (takeErr : Except IOErr (Option IOErr)) (readRes : Except IOErr Nat) :
    Except IOErr Nat × List IOErr :=
  match get_stream_ref nl i with
  | Except.error e => (Except.error e, [])
  | Except.ok _ =>
    match takeErr with
    | Except.error e => (Except.error e, [])
    | Except.ok oerr =>
      let diag := match oerr with
        | some e => [e]
        | none => []
      match get_stream_ref nl i with
      | Except.error e => (Except.error e, diag)
      | Except.ok _ => (readRes, diag)

/-- Embedding of write_stream (borrows immutably): writeRes is the OS write
result, returned as is once the handle narrows to a stream. -/
def write_stream (nl : NetLoop) (i : Nat)
    (writeRes : Except IOErr Nat) : Except IOErr Nat :=
  match get_stream_ref nl i with
  | Except.error e => Except.error e
  | Except.ok _ => writeRes

/-- Embedding of close: remove the entry when the handle is contained,
otherwise do nothing; always return ok. -/
def close (nl : NetLoop) (i : Nat) : NetLoop × Except IOErr Unit :=
  if Slab.contains nl.slab i then
    ({ nl with slab := Slab.remove nl.slab i }, Except.ok ())
  else
    (nl, Except.ok ())

deriving instance DecidableEq for Except

/-- The public operations of the manager, each carrying the OS results it
consumes, for stating properties over arbitrary call sequences. shutdown,
get_error, local_addr, peer_addr and the three event-queue receives act on a
socket or on the channel but never on the slab or on is_listening. -/
inductive Op where
  | listen (bindRes : Except IOErr Nat) (regRes : Except IOErr Unit)
  | connect (connRes : Except IOErr Nat) (regRes : Except IOErr Unit)
  | accept (id : Nat) (takeErr : Except IOErr (Option IOErr))
      (accRes : Except IOErr Nat) (regRes : Except IOErr Unit)
  | closeOp (i : Nat)
  | readOp (i : Nat) (takeErr : Except IOErr (Option IOErr))
      (readRes : Except IOErr Nat)
  | writeOp (i : Nat) (writeRes : Except IOErr Nat)
  | shutdownOp (i : Nat)
  | getErrorOp (i : Nat)
  | localAddrOp (i : Nat)
  | peerAddrOp (i : Nat)
  | recvOp
deriving DecidableEq, Repr

/-- State transition of one public operation. read_stream and write_stream
borrow the NetLoop immutably; shutdown, get_error, local_addr, peer_addr and
the receives touch only a socket or the event channel, so all of them leave
the registry state unchanged. -/
def Op.apply (nl : NetLoop) : Op → NetLoop
  | .listen br rr => (tcp_listen nl br rr).1
  | .connect cr rr => (tcp_connect nl cr rr).1
  | .accept i te ar rr => (tcp_accept nl i te ar rr).1
  | .closeOp i => (close nl i).1
  | _ => nl

/-! Helper lemmas about the registry model. -/

theorem contains_lt_length (s : Slab) (i : Nat) (h : Slab.contains s i = true) :
    i < s.length := by
  by_contra hge
  have hnone : s[i]? = none := List.getElem?_eq_none (by omega)
  simp [Slab.contains, Slab.get, hnone] at h

theorem lowestVacant_le_length (s : Slab) : lowestVacant s ≤ s.length := by
  induction s with
  | nil => simp [lowestVacant]
  | cons hd tl ih =>
    cases hd with
    | none => simp [lowestVacant]
    | some v =>
      simp only [lowestVacant, List.length_cons]
      omega

theorem get_lowestVacant (s : Slab) : Slab.get s (lowestVacant s) = none := by
  induction s with
  | nil => rfl
  | cons hd tl ih =>
    cases hd with
    | none => simp [lowestVacant, Slab.get]
    | some v => simpa [lowestVacant, Slab.get] using ih

theorem contains_of_lt_lowestVacant (s : Slab) (k : Nat)
    (hk : k < lowestVacant s) : Slab.contains s k = true := by
  induction s generalizing k with
  | nil => simp [lowestVacant] at hk
  | cons hd tl ih =>
    cases hd with
    | none => simp [lowestVacant] at hk
    | some v =>
      cases k with
      | zero => simp [Slab.contains, Slab.get]
      | succ k =>
        have hk2 : k < lowestVacant tl := by
          simp [lowestVacant] at hk
          omega
        simpa [Slab.contains, Slab.get] using ih k hk2

theorem lowestVacant_eq_of_min_free (s : Slab) (h : Nat)
    (hfree : Slab.contains s h = false)
    (hocc : ∀ k, k < h → Slab.contains s k = true) : lowestVacant s = h := by
  rcases Nat.lt_trichotomy (lowestVacant s) h with hlt | heq | hgt
  · have hcon := hocc _ hlt
    rw [Slab.contains, get_lowestVacant] at hcon
    simp at hcon
  · exact heq
  · have hcon := contains_of_lt_lowestVacant s h hgt
    simp [hcon] at hfree

theorem get_insert_self (s : Slab) (v : NetTcp) :
    Slab.get (Slab.insert s v).1 (Slab.insert s v).2 = some v := by
  show Slab.get
      (if lowestVacant s < s.length then s.set (lowestVacant s) (some v)
        else s ++ [some v]) (lowestVacant s) = some v
  by_cases hlt : lowestVacant s < s.length
  · rw [if_pos hlt]
    simp [Slab.get, List.getElem?_set_eq_of_lt _ hlt]
  · have hle := lowestVacant_le_length s
    have heq : lowestVacant s = s.length := by omega
    rw [if_neg hlt, heq]
    unfold Slab.get
    rw [List.getElem?_append_right (Nat.le_refl s.length)]
    simp

theorem contains_remove_self (s : Slab) (i : Nat) (h : i < s.length) :
    Slab.contains (Slab.remove s i) i = false := by
  simp [Slab.contains, Slab.get, Slab.remove, List.getElem?_set_eq_of_lt _ h]

theorem get_remove_self (s : Slab) (i : Nat) (h : i < s.length) :
    Slab.get (Slab.remove s i) i = none := by
  simp [Slab.get, Slab.remove, List.getElem?_set_eq_of_lt _ h]

theorem get_remove_ne (s : Slab) (i j : Nat) (h : i ≠ j) :
    Slab.get (Slab.remove s i) j = Slab.get s j := by
  simp [Slab.get, Slab.remove, List.getElem?_set_ne h]

theorem get_listener_ref_insert (nl : NetLoop) (sock : Nat) :
    get_listener_ref { nl with slab := (Slab.insert nl.slab (.listener sock)).1 }
      (Slab.insert nl.slab (.listener sock)).2 = Except.ok sock := by
  simp [get_listener_ref, slab_get, get_insert_self]

theorem get_stream_ref_insert (nl : NetLoop) (sock : Nat) :
    get_stream_ref { nl with slab := (Slab.insert nl.slab (.stream sock)).1 }
      (Slab.insert nl.slab (.stream sock)).2 = Except.ok sock := by
  simp [get_stream_ref, slab_get, get_insert_self]

theorem tcp_listen_char_binderr (nl : NetLoop) (e : IOErr) (rr : Except IOErr Unit) :
    tcp_listen nl (Except.error e) rr = (nl, Except.error e) := rfl

theorem tcp_listen_char_regerr (nl : NetLoop) (sock : Nat) (e : IOErr) :
    tcp_listen nl (Except.ok sock) (Except.error e)
      = (⟨(Slab.insert nl.slab (.listener sock)).1, nl.is_listening⟩, Except.error e) := by
  simp [tcp_listen, get_listener_ref_insert]

theorem tcp_listen_char_ok (nl : NetLoop) (sock : Nat) :
    tcp_listen nl (Except.ok sock) (Except.ok ())
      = (⟨(Slab.insert nl.slab (.listener sock)).1, true⟩,
         Except.ok (Slab.insert nl.slab (.listener sock)).2) := by
  simp [tcp_listen, get_listener_ref_insert]

theorem register_stream_char_err (nl : NetLoop) (sock : Nat) (e : IOErr) :
    register_stream nl sock (Except.error e)
      = (⟨(Slab.insert nl.slab (.stream sock)).1, nl.is_listening⟩, Except.error e) := by
  simp [register_stream, get_stream_ref_insert]

theorem register_stream_char_ok (nl : NetLoop) (sock : Nat) :
    register_stream nl sock (Except.ok ())
      = (⟨(Slab.insert nl.slab (.stream sock)).1, nl.is_listening⟩,
         Except.ok (Slab.insert nl.slab (.stream sock)).2) := by
  simp [register_stream, get_stream_ref_insert]

theorem addr_to_bytes_v4_eq (o1 o2 o3 o4 p : Nat) (b : List Nat)
    (hb : 6 ≤ b.length) :
    addr_to_bytes (.v4 o1 o2 o3 o4 p) b
      = some (Except.ok (), [o1, o2, o3, o4, p % 256, p / 256] ++ b.drop 6) := by
  rcases b with _ | ⟨x0, _ | ⟨x1, _ | ⟨x2, _ | ⟨x3, _ | ⟨x4, _ | ⟨x5, t⟩⟩⟩⟩⟩⟩ <;>
      simp at hb <;>
      first
        | omega
        | simp [addr_to_bytes, writeAt, u16_as_u8_le]

theorem as_u16_le_u16_as_u8_le (p : Nat) : as_u16_le (u16_as_u8_le p) = p := by
  show (p % 256) ||| ((p / 256) <<< 8) = p
  rw [Nat.shiftLeft_eq, Nat.lor_comm, Nat.mul_comm]
  rw [← Nat.mul_add_lt_is_or (by omega : p % 256 < 2 ^ 8)]
  have := Nat.div_add_mod p 256
  norm_num
  omega

theorem readiness_state_spec (t : Nat) (r w h er : Bool) :
    readiness_state ⟨t, r, w, h, er⟩ = spec_readiness_value r w h er
    ∧ readiness_state ⟨t, r, w, h, er⟩ < 16 := by
  have h0 : readiness_state ⟨t, r, w, h, er⟩ = readiness_state ⟨0, r, w, h, er⟩ := rfl
  rw [h0]
  clear h0
  revert r w h er
  decide

theorem register_stream_is_listening (nl : NetLoop) (sock : Nat)
    (rr : Except IOErr Unit) :
    (register_stream nl sock rr).1.is_listening = nl.is_listening := by
  cases rr with
  | error e => rw [register_stream_char_err]
  | ok u => cases u; rw [register_stream_char_ok]

theorem tcp_listen_is_listening_mono (nl : NetLoop) (br : Except IOErr Nat)
    (rr : Except IOErr Unit) (h : nl.is_listening = true) :
    (tcp_listen nl br rr).1.is_listening = true := by
  cases br with
  | error e => rw [tcp_listen_char_binderr]; exact h
  | ok sock =>
    cases rr with
    | error e => rw [tcp_listen_char_regerr]; exact h
    | ok u => cases u; rw [tcp_listen_char_ok]

theorem tcp_connect_is_listening (nl : NetLoop) (cr : Except IOErr Nat)
    (rr : Except IOErr Unit) (h : nl.is_listening = true) :
    (tcp_connect nl cr rr).1.is_listening = true := by
  cases cr with
  | error e => exact h
  | ok sock =>
    show (register_stream { nl with is_listening := true } sock rr).1.is_listening = true
    rw [register_stream_is_listening]

theorem tcp_accept_is_listening (nl : NetLoop) (id : Nat)
    (te : Except IOErr (Option IOErr)) (ar : Except IOErr Nat)
    (rr : Except IOErr Unit) :
    (tcp_accept nl id te ar rr).1.is_listening = nl.is_listening := by
  cases hgl : get_listener_ref nl id with
  | error e => simp [tcp_accept, hgl]
  | ok s =>
    cases te with
    | error e => simp [tcp_accept, hgl]
    | ok oerr =>
      cases ar with
      | error e => simp [tcp_accept, hgl]
      | ok sock => simp [tcp_accept, hgl, register_stream_is_listening]

theorem close_is_listening (nl : NetLoop) (i : Nat) :
    (close nl i).1.is_listening = nl.is_listening := by
  unfold close
  split <;> rfl

theorem apply_is_listening_mono (nl : NetLoop) (op : Op)
    (h : nl.is_listening = true) : (Op.apply nl op).is_listening = true := by
  cases op with
  | listen br rr => exact tcp_listen_is_listening_mono nl br rr h
  | connect cr rr => exact tcp_connect_is_listening nl cr rr h
  | accept i te ar rr => rw [Op.apply, tcp_accept_is_listening]; exact h
  | closeOp i => rw [Op.apply, close_is_listening]; exact h
  | readOp i te rr => exact h
  | writeOp i wr => exact h
  | shutdownOp i => exact h
  | getErrorOp i => exact h
  | localAddrOp i => exact h
  | peerAddrOp i => exact h
  | recvOp => exact h

theorem tcp_listen_ok_id (nl : NetLoop) (br : Except IOErr Nat)
    (rr : Except IOErr Unit) (id : Nat)
    (h : (tcp_listen nl br rr).2 = Except.ok id) : id = lowestVacant nl.slab := by
  cases br with
  | error e => rw [tcp_listen_char_binderr] at h; simp at h
  | ok sock =>
    cases rr with
    | error e => rw [tcp_listen_char_regerr] at h; simp at h
    | ok u =>
      cases u
      rw [tcp_listen_char_ok] at h
      simp at h
      exact h.symm

theorem register_stream_ok_id (nl : NetLoop) (sock : Nat)
    (rr : Except IOErr Unit) (id : Nat)
    (h : (register_stream nl sock rr).2 = Except.ok id) :
    id = lowestVacant nl.slab := by
  cases rr with
  | error e => rw [register_stream_char_err] at h; simp at h
  | ok u =>
    cases u
    rw [register_stream_char_ok] at h
    simp at h
    exact h.symm

/-! Claim theorems. -/

/-- C1: for every IPv4 address with octets below 256 and port below 65536
and every 6-byte buffer, addr_to_bytes succeeds and writes exactly the bytes
[o1, o2, o3, o4, p mod 256, p div 256] (octets in network order, port
little-endian), and decoding those 6 bytes back (first 4 bytes as the
octets, last 2 bytes little-endian through as_u16_le) reproduces the
original address and port exactly. -/
theorem addr_to_bytes_roundtrip (o1 o2 o3 o4 p : Nat) (b : List Nat)
    (h1 : o1 < 256) (h2 : o2 < 256) (h3 : o3 < 256) (h4 : o4 < 256)
    (hp : p < 65536) (hb : b.length = 6) :
    addr_to_bytes (.v4 o1 o2 o3 o4 p) b
      = some (Except.ok (), [o1, o2, o3, o4, p % 256, p / 256])
    ∧ ([o1, o2, o3, o4, p % 256, p / 256].take 4 = [o1, o2, o3, o4]
       ∧ as_u16_le ([o1, o2, o3, o4, p % 256, p / 256].drop 4) = p) := by
  refine ⟨?_, by simp, ?_⟩
  · rw [addr_to_bytes_v4_eq o1 o2 o3 o4 p b (by omega),
      List.drop_eq_nil_of_le (by omega), List.append_nil]
  · show as_u16_le [p % 256, p / 256] = p
    exact as_u16_le_u16_as_u8_le p

/-- Witness for C1 at the spec's own example 1.2.3.4 port 100: the buffer
becomes [1, 2, 3, 4, 100, 0] and decodes back. -/
theorem addr_to_bytes_roundtrip_witness :
    addr_to_bytes (.v4 1 2 3 4 100) [0, 0, 0, 0, 0, 0]
      = some (Except.ok (), [1, 2, 3, 4, 100, 0])
    ∧ ([1, 2, 3, 4, 100, 0].take 4 = ([1, 2, 3, 4] : List Nat)
       ∧ as_u16_le ([1, 2, 3, 4, 100, 0].drop 4) = 100) := by
  have h := addr_to_bytes_roundtrip 1 2 3 4 100 [0, 0, 0, 0, 0, 0]
    (by norm_num) (by norm_num) (by norm_num) (by norm_num) (by norm_num) rfl
  simpa using h

/-- C2 counterexample: the first component of event_to_ints is the token
cast with Rust as-cast semantics (usize to i64 on a 64-bit platform), so for
the valid usize token 2 to the 63 it is not the handle unchanged: it wraps
to a negative value. -/
theorem event_to_ints_token_wrap_cex :
    (event_to_ints ⟨2 ^ 63, true, false, false, false⟩).1
      ≠ ((2 ^ 63 : Nat) : Int) := by
  norm_num [event_to_ints, usize_as_i64]

/-- C2 (amended): for every event, the first component is the token
unchanged when the token is below 2 to the 63, and for every valid usize
token at or above 2 to the 63 it is the token wrapped two's-complement
(token minus 2 to the 64); the second component always — with no condition
on the token — packs exactly the four readiness flags into bits 0 to 3
(bit 0 readable, bit 1 writable, bit 2 hangup, bit 3 error), all other bits
0, so its value is below 16. -/
theorem event_to_ints_amended (e : Event) :
    (e.token < 2 ^ 63 → (event_to_ints e).1 = (e.token : Int))
    ∧ (2 ^ 63 ≤ e.token → e.token < 2 ^ 64 →
        (event_to_ints e).1 = (e.token : Int) - 2 ^ 64)
    ∧ (event_to_ints e).2
        = (spec_readiness_value e.readable e.writable e.hup e.error : Int)
    ∧ readiness_state e < 16 := by
  obtain ⟨t, r, w, hp, er⟩ := e
  refine ⟨?_, ?_, ?_, ?_⟩
  · intro h
    show usize_as_i64 t = (t : Int)
    unfold usize_as_i64
    rw [Nat.mod_eq_of_lt (lt_trans h (by norm_num))]
    rw [if_pos h]
  · intro h1 h2
    show usize_as_i64 t = (t : Int) - 2 ^ 64
    unfold usize_as_i64
    rw [Nat.mod_eq_of_lt h2]
    rw [if_neg (by omega)]
  · show ((readiness_state ⟨t, r, w, hp, er⟩ : Nat) : Int) = _
    rw [(readiness_state_spec t r w hp er).1]
  · exact (readiness_state_spec t r w hp er).2

/-- Witness for C2 (amended): token 3 with readable and writable gives the
pair (3, 3); the boundary token 2 to the 63 wraps to minus 2 to the 63. -/
theorem event_to_ints_amended_witness :
    (event_to_ints ⟨3, true, true, false, false⟩).1 = ((3 : Nat) : Int)
    ∧ (event_to_ints ⟨2 ^ 63, true, false, false, false⟩).1
        = ((2 ^ 63 : Nat) : Int) - 2 ^ 64
    ∧ (event_to_ints ⟨3, true, true, false, false⟩).2
        = (spec_readiness_value true true false false : Int)
    ∧ readiness_state ⟨3, true, true, false, false⟩ < 16 :=
  ⟨(event_to_ints_amended ⟨3, true, true, false, false⟩).1 (by norm_num),
   (event_to_ints_amended ⟨2 ^ 63, true, false, false, false⟩).2.1
     (by norm_num) (by norm_num),
   (event_to_ints_amended ⟨3, true, true, false, false⟩).2.2.1,
   (event_to_ints_amended ⟨3, true, true, false, false⟩).2.2.2⟩

/-- C3 counterexample: the narrowing error for a wrong-variant handle is the
very same error value as the not-found error for an unregistered handle
(kind Other, identical message), so the two failures are not distinct:
narrowing handle 0 holding a Listener and narrowing the unregistered handle
0 of an empty registry produce equal results. -/
theorem wrong_kind_error_shared_cex :
    get_stream_ref ⟨[some (.listener 3)], false⟩ 0 = Except.error slabNotFoundErr
    ∧ get_stream_ref ⟨[], false⟩ 0 = Except.error slabNotFoundErr
    ∧ (read_stream ⟨[some (.listener 3)], false⟩ 0 (Except.ok none) (Except.ok 0)).1
        = (read_stream ⟨[], false⟩ 0 (Except.ok none) (Except.ok 0)).1 := by
  decide

/-- C3 (amended): read and write on a handle holding a Listener fail, and
accept on a handle holding a Stream fails, and none of them panics — but the
error returned is the shared slab error value (kind Other, message the
not-found message), the same value returned for an unregistered handle, not
a distinct WrongKind error. -/
theorem narrowing_wrong_kind :
    (∀ (nl : NetLoop) (i s : Nat) (te : Except IOErr (Option IOErr))
        (rr : Except IOErr Nat),
        Slab.get nl.slab i = some (.listener s) →
        (read_stream nl i te rr).1 = Except.error slabNotFoundErr
        ∧ write_stream nl i rr = Except.error slabNotFoundErr)
    ∧ (∀ (nl : NetLoop) (i s : Nat) (te : Except IOErr (Option IOErr))
        (ar : Except IOErr Nat) (rg : Except IOErr Unit),
        Slab.get nl.slab i = some (.stream s) →
        (tcp_accept nl i te ar rg).2.1 = Except.error slabNotFoundErr)
    ∧ (∀ (nl : NetLoop) (i : Nat) (te : Except IOErr (Option IOErr))
        (rr : Except IOErr Nat),
        Slab.get nl.slab i = none →
        (read_stream nl i te rr).1 = Except.error slabNotFoundErr) := by
  refine ⟨?_, ?_, ?_⟩
  · intro nl i s te rr hget
    have hs : get_stream_ref nl i = Except.error slabNotFoundErr := by
      simp [get_stream_ref, slab_get, hget]
    exact ⟨by simp [read_stream, hs], by simp [write_stream, hs]⟩
  · intro nl i s te ar rg hget
    have hl : get_listener_ref nl i = Except.error slabNotFoundErr := by
      simp [get_listener_ref, slab_get, hget]
    simp [tcp_accept, hl]
  · intro nl i te rr hget
    have hs : get_stream_ref nl i = Except.error slabNotFoundErr := by
      simp [get_stream_ref, slab_get, hget]
    simp [read_stream, hs]

/-- Witness for C3 (amended) on a registry holding a Listener at 0 and a
Stream at 1. -/
theorem narrowing_wrong_kind_witness :
    ((read_stream ⟨[some (.listener 3), some (.stream 4)], false⟩ 0
        (Except.ok none) (Except.ok 0)).1 = Except.error slabNotFoundErr
      ∧ write_stream ⟨[some (.listener 3), some (.stream 4)], false⟩ 0
          (Except.ok 0) = Except.error slabNotFoundErr)
    ∧ (tcp_accept ⟨[some (.listener 3), some (.stream 4)], false⟩ 1
        (Except.ok none) (Except.ok 9) (Except.ok ())).2.1
        = Except.error slabNotFoundErr
    ∧ (read_stream ⟨[some (.listener 3), some (.stream 4)], false⟩ 7
        (Except.ok none) (Except.ok 0)).1 = Except.error slabNotFoundErr :=
  ⟨narrowing_wrong_kind.1 ⟨[some (.listener 3), some (.stream 4)], false⟩ 0 3
      (Except.ok none) (Except.ok 0) (by decide),
   narrowing_wrong_kind.2.1 ⟨[some (.listener 3), some (.stream 4)], false⟩ 1 4
      (Except.ok none) (Except.ok 9) (Except.ok ()) (by decide),
   narrowing_wrong_kind.2.2 ⟨[some (.listener 3), some (.stream 4)], false⟩ 7
      (Except.ok none) (Except.ok 0) (by decide)⟩

/-- C4: for every IPv6 address and every output buffer, addr_to_bytes
returns the IPv6-unsupported error (the UnsupportedAddressFamily failure)
and the buffer contents are identical before and after the call. -/
theorem addr_to_bytes_ipv6_rejected (segments : List Nat) (port : Nat)
    (b : List Nat) :
    addr_to_bytes (.v6 segments port) b
      = some (Except.error ipv6UnsupportedErr, b) := rfl

/-- C5: a successful registration through tcp_listen or through
register_stream (the path of tcp_connect) assigns the lowest handle not
currently occupied; in particular, after close h frees a handle h below all
other free handles, the next tcp_listen insertion returns h again. -/
theorem insert_assigns_lowest_free :
    (∀ (nl : NetLoop) (br : Except IOErr Nat) (rr : Except IOErr Unit) (id : Nat),
        (tcp_listen nl br rr).2 = Except.ok id →
        Slab.contains nl.slab id = false
        ∧ ∀ k, k < id → Slab.contains nl.slab k = true)
    ∧ (∀ (nl : NetLoop) (sock : Nat) (rr : Except IOErr Unit) (id : Nat),
        (register_stream nl sock rr).2 = Except.ok id →
        Slab.contains nl.slab id = false
        ∧ ∀ k, k < id → Slab.contains nl.slab k = true)
    ∧ (∀ (nl : NetLoop) (h : Nat) (br : Except IOErr Nat) (rr : Except IOErr Unit)
        (id : Nat),
        Slab.contains nl.slab h = true →
        (∀ k, k < h → Slab.contains nl.slab k = true) →
        (tcp_listen (close nl h).1 br rr).2 = Except.ok id → id = h) := by
  have hfree : ∀ s : Slab, Slab.contains s (lowestVacant s) = false := by
    intro s
    simp [Slab.contains, get_lowestVacant]
  refine ⟨?_, ?_, ?_⟩
  · intro nl br rr id hok
    obtain rfl := tcp_listen_ok_id nl br rr id hok
    exact ⟨hfree _, fun k hk => contains_of_lt_lowestVacant _ k hk⟩
  · intro nl sock rr id hok
    obtain rfl := register_stream_ok_id nl sock rr id hok
    exact ⟨hfree _, fun k hk => contains_of_lt_lowestVacant _ k hk⟩
  · intro nl h br rr id hcont hocc hok
    obtain rfl := tcp_listen_ok_id _ br rr id hok
    have hstate : (close nl h).1 = ⟨Slab.remove nl.slab h, nl.is_listening⟩ := by
      simp [close, hcont]
    rw [hstate]
    show lowestVacant (Slab.remove nl.slab h) = h
    refine lowestVacant_eq_of_min_free _ _ ?_ ?_
    · exact contains_remove_self _ _ (contains_lt_length _ _ hcont)
    · intro k hk
      unfold Slab.contains
      rw [get_remove_ne _ _ _ (by omega)]
      exact hocc k hk

/-- Witness for C5: with Listener at 0 and Stream at 1 registered, a
successful listen gets handle 2 while 0 and 1 are occupied; and after
closing handle 1 (with handle 0 still occupied) the next listen returns
handle 1. -/
theorem insert_assigns_lowest_free_witness :
    Slab.contains ([some (.listener 10), some (.stream 11)] : Slab) 2 = false
    ∧ Slab.contains ([some (.listener 10), some (.stream 11)] : Slab) 1 = true
    ∧ Slab.contains ([some (.listener 10), some (.stream 11)] : Slab) 0 = true
    ∧ Slab.contains (([] : Slab)) 0 = false
    ∧ (1 : Nat) = 1 := by
  have h1 := insert_assigns_lowest_free.1
    ⟨[some (.listener 10), some (.stream 11)], true⟩
    (Except.ok 5) (Except.ok ()) 2 (by decide)
  have h2 := insert_assigns_lowest_free.2.1 ⟨[], false⟩ 4 (Except.ok ()) 0 (by decide)
  have h3 := insert_assigns_lowest_free.2.2
    ⟨[some (.listener 10), some (.stream 11)], true⟩ 1
    (Except.ok 5) (Except.ok ()) 1 (by decide)
    (fun k hk => by
      have hk0 : k = 0 := by omega
      subst hk0
      decide)
    (by decide)
  exact ⟨h1.1, h1.2 1 (by omega), h1.2 0 (by omega), h2.1, h3⟩

/-- C6: close always returns success; when the handle is registered the
resulting state is exactly the one with the entry removed (the handle no
longer maps to any entry afterwards), when the handle is not registered the
call is a no-op success leaving the state unchanged, and closing the same
handle twice leaves the registry in the same state as closing it once. -/
theorem close_always_ok_idempotent (nl : NetLoop) (i : Nat) :
    (close nl i).2 = Except.ok ()
    ∧ (Slab.contains nl.slab i = true →
        (close nl i).1 = ⟨Slab.remove nl.slab i, nl.is_listening⟩
        ∧ Slab.get (close nl i).1.slab i = none)
    ∧ (Slab.contains nl.slab i = false → close nl i = (nl, Except.ok ()))
    ∧ close (close nl i).1 i = ((close nl i).1, Except.ok ()) := by
  refine ⟨?_, ?_, ?_, ?_⟩
  · unfold close
    split <;> rfl
  · intro hcc
    have hlt := contains_lt_length nl.slab i hcc
    constructor
    · simp [close, hcc]
    · have hg := get_remove_self nl.slab i hlt
      simp [close, hcc, hg]
  · intro hcc
    simp [close, hcc]
  · cases hcc : Slab.contains nl.slab i with
    | false => simp [close, hcc]
    | true =>
      have hlt := contains_lt_length nl.slab i hcc
      have h2 := contains_remove_self nl.slab i hlt
      simp [close, hcc, h2]

/-- Witness for C6: closing the registered handle 0 removes its entry, and
closing the unregistered handle 3 of an empty manager changes nothing. -/
theorem close_always_ok_idempotent_witness :
    ((close ⟨[some (.listener 1), some (.stream 2)], true⟩ 0).1
        = ⟨Slab.remove [some (.listener 1), some (.stream 2)] 0, true⟩
      ∧ Slab.get (close ⟨[some (.listener 1), some (.stream 2)], true⟩ 0).1.slab 0
        = none)
    ∧ close ⟨[], true⟩ 3 = (⟨[], true⟩, Except.ok ()) :=
  ⟨(close_always_ok_idempotent ⟨[some (.listener 1), some (.stream 2)], true⟩
      0).2.1 (by decide),
   (close_always_ok_idempotent ⟨[], true⟩ 3).2.2.1 (by decide)⟩

/-- C7: on a registered Listener handle whose advisory OS error slot reports
a pending error, tcp_accept does not abort because of it: the state and the
returned value are the same as when no pending error is reported, the error
shows up only in the printed diagnostics, and with a pending connection and
successful registration the accept still registers the accepted stream and
returns its handle. -/
theorem accept_advisory_error_nonfatal (nl : NetLoop) (id s : Nat) (e : IOErr)
    (ar : Except IOErr Nat) (rr : Except IOErr Unit)
    (hl : get_listener_ref nl id = Except.ok s) :
    ((tcp_accept nl id (Except.ok (some e)) ar rr).1
        = (tcp_accept nl id (Except.ok none) ar rr).1
      ∧ (tcp_accept nl id (Except.ok (some e)) ar rr).2.1
        = (tcp_accept nl id (Except.ok none) ar rr).2.1)
    ∧ (tcp_accept nl id (Except.ok (some e)) ar rr).2.2 = [e]
    ∧ (∀ sock, ar = Except.ok sock → rr = Except.ok () →
        (tcp_accept nl id (Except.ok (some e)) ar rr).2.1
            = Except.ok (Slab.insert nl.slab (.stream sock)).2
          ∧ Slab.get (tcp_accept nl id (Except.ok (some e)) ar rr).1.slab
              (Slab.insert nl.slab (.stream sock)).2
            = some (.stream sock)) := by
  refine ⟨⟨?_, ?_⟩, ?_, ?_⟩
  · cases ar <;> simp [tcp_accept, hl]
  · cases ar <;> simp [tcp_accept, hl]
  · cases ar <;> simp [tcp_accept, hl]
  · intro sock har hrr
    subst har
    subst hrr
    constructor
    · simp [tcp_accept, hl, register_stream_char_ok]
    · simp [tcp_accept, hl, register_stream_char_ok, get_insert_self]

/-- Witness for C7: a pending advisory error on the listener at handle 0 is
only reported as a diagnostic; the accepted stream is still registered at
the next free handle. -/
theorem accept_advisory_error_nonfatal_witness :
    (tcp_accept ⟨[some (.listener 3)], true⟩ 0
        (Except.ok (some ⟨.other, "pending"⟩)) (Except.ok 42) (Except.ok ())).2.2
      = [⟨.other, "pending"⟩]
    ∧ (tcp_accept ⟨[some (.listener 3)], true⟩ 0
        (Except.ok (some ⟨.other, "pending"⟩)) (Except.ok 42) (Except.ok ())).2.1
      = Except.ok (Slab.insert [some (.listener 3)] (.stream 42)).2
    ∧ Slab.get (tcp_accept ⟨[some (.listener 3)], true⟩ 0
        (Except.ok (some ⟨.other, "pending"⟩)) (Except.ok 42) (Except.ok ())).1.slab
        (Slab.insert [some (.listener 3)] (.stream 42)).2
      = some (.stream 42) := by
  have h := accept_advisory_error_nonfatal ⟨[some (.listener 3)], true⟩ 0 3
    ⟨.other, "pending"⟩ (Except.ok 42) (Except.ok ()) (by decide)
  exact ⟨h.2.1, (h.2.2 42 rfl rfl).1, (h.2.2 42 rfl rfl).2⟩

/-- C8: every successful tcp_listen and every successful tcp_connect (even
on a manager that never registered a listener) sets is_listening to true,
and no public operation ever resets it to false, so once set it stays true
across every subsequent sequence of operations. -/
theorem is_listening_persistent :
    (∀ (nl : NetLoop) (br : Except IOErr Nat) (rr : Except IOErr Unit) (id : Nat),
        (tcp_listen nl br rr).2 = Except.ok id →
        (tcp_listen nl br rr).1.is_listening = true)
    ∧ (∀ (nl : NetLoop) (cr : Except IOErr Nat) (rr : Except IOErr Unit) (id : Nat),
        (tcp_connect nl cr rr).2 = Except.ok id →
        (tcp_connect nl cr rr).1.is_listening = true)
    ∧ (∀ (nl : NetLoop) (ops : List Op),
        nl.is_listening = true →
        (List.foldl Op.apply nl ops).is_listening = true) := by
  refine ⟨?_, ?_, ?_⟩
  · intro nl br rr id hok
    cases br with
    | error e => rw [tcp_listen_char_binderr] at hok; simp at hok
    | ok sock =>
      cases rr with
      | error e2 => rw [tcp_listen_char_regerr] at hok; simp at hok
      | ok u =>
        cases u
        rw [tcp_listen_char_ok]
  · intro nl cr rr id hok
    cases cr with
    | error e => simp [tcp_connect] at hok
    | ok sock =>
      show (register_stream { nl with is_listening := true } sock rr).1.is_listening
        = true
      rw [register_stream_is_listening]
  · intro nl ops h
    induction ops generalizing nl with
    | nil => exact h
    | cons op rest ih => exact ih _ (apply_is_listening_mono nl op h)

/-- Witness for C8: listen and connect on a fresh manager set the flag; a
close followed by a read keeps it true. -/
theorem is_listening_persistent_witness :
    (tcp_listen ⟨[], false⟩ (Except.ok 5) (Except.ok ())).1.is_listening = true
    ∧ (tcp_connect ⟨[], false⟩ (Except.ok 6) (Except.ok ())).1.is_listening = true
    ∧ (List.foldl Op.apply ⟨[], true⟩
        [Op.closeOp 0, Op.readOp 0 (Except.ok none) (Except.ok 0)]).is_listening
      = true :=
  ⟨is_listening_persistent.1 ⟨[], false⟩ (Except.ok 5) (Except.ok ()) 0 (by decide),
   is_listening_persistent.2.1 ⟨[], false⟩ (Except.ok 6) (Except.ok ()) 0 (by decide),
   is_listening_persistent.2.2 ⟨[], true⟩
     [Op.closeOp 0, Op.readOp 0 (Except.ok none) (Except.ok 0)] rfl⟩

/-- C9: for every IPv4 address and every buffer of length at least 6,
addr_to_bytes returns without panicking, the result keeps the buffer length
and touches only bytes 0 through 5 (every index from 6 on is unchanged);
and for some IPv4 address and some buffer shorter than 6 bytes it panics
(modelled as none) on the out-of-bounds slice instead of returning an
error. -/
theorem addr_to_bytes_buffer_precondition :
    (∀ (o1 o2 o3 o4 p : Nat) (b : List Nat), 6 ≤ b.length →
        addr_to_bytes (.v4 o1 o2 o3 o4 p) b
          = some (Except.ok (), [o1, o2, o3, o4, p % 256, p / 256] ++ b.drop 6)
        ∧ ([o1, o2, o3, o4, p % 256, p / 256] ++ b.drop 6).length = b.length
        ∧ ∀ i, 6 ≤ i →
            ([o1, o2, o3, o4, p % 256, p / 256] ++ b.drop 6)[i]? = b[i]?)
    ∧ (∃ o1 o2 o3 o4 p : Nat, ∃ b : List Nat,
        b.length < 6 ∧ addr_to_bytes (.v4 o1 o2 o3 o4 p) b = none) := by
  constructor
  · intro o1 o2 o3 o4 p b hb
    refine ⟨addr_to_bytes_v4_eq o1 o2 o3 o4 p b hb, ?_, ?_⟩
    · simp
      omega
    · intro i hi
      rw [List.getElem?_append_right (by simp; omega)]
      rw [List.getElem?_drop]
      congr 1
      simp
      omega
  · exact ⟨0, 0, 0, 0, 0, [], by simp, by decide⟩

/-- Witness for C9: an 8-byte buffer of ones keeps its last two bytes. -/
theorem addr_to_bytes_buffer_precondition_witness :
    addr_to_bytes (.v4 9 8 7 6 300) [1, 1, 1, 1, 1, 1, 1, 1]
      = some (Except.ok (), [9, 8, 7, 6, 44, 1, 1, 1])
    ∧ ([9, 8, 7, 6, 300 % 256, 300 / 256]
        ++ List.drop 6 [1, 1, 1, 1, 1, 1, 1, 1])[7]?
      = ([1, 1, 1, 1, 1, 1, 1, 1] : List Nat)[7]? := by
  have h := addr_to_bytes_buffer_precondition.1 9 8 7 6 300
    [1, 1, 1, 1, 1, 1, 1, 1] (by norm_num)
  exact ⟨by simpa using h.1, h.2.2 7 (by norm_num)⟩

/-- C10: close i changes at most the entry at handle i: every other handle
maps to the same entry afterwards and the is_listening flag is untouched;
when i is not registered the whole manager state is unchanged. -/
theorem close_frame (nl : NetLoop) (i : Nat) :
    (∀ j, j ≠ i → Slab.get (close nl i).1.slab j = Slab.get nl.slab j)
    ∧ (close nl i).1.is_listening = nl.is_listening
    ∧ (Slab.contains nl.slab i = false → close nl i = (nl, Except.ok ())) := by
  refine ⟨?_, close_is_listening nl i, ?_⟩
  · intro j hj
    cases hcc : Slab.contains nl.slab i with
    | false => simp [close, hcc]
    | true =>
      have hend : (close nl i).1 = ⟨Slab.remove nl.slab i, nl.is_listening⟩ := by
        simp [close, hcc]
      rw [hend]
      exact get_remove_ne nl.slab i j (fun he => hj he.symm)
  · intro hcc
    simp [close, hcc]

/-- Witness for C10: closing handle 0 leaves handle 1 intact; closing the
unregistered handle 5 of an empty manager changes nothing. -/
theorem close_frame_witness :
    Slab.get (close ⟨[some (.listener 1), some (.stream 2)], true⟩ 0).1.slab 1
      = Slab.get ([some (.listener 1), some (.stream 2)] : Slab) 1
    ∧ close ⟨[], true⟩ 5 = (⟨[], true⟩, Except.ok ()) :=
  ⟨(close_frame ⟨[some (.listener 1), some (.stream 2)], true⟩ 0).1 1 (by decide),
   (close_frame ⟨[], true⟩ 5).2.2 (by decide)⟩

end Wasabi
